import Mathlib

/-!
Shallow embedding of the lead-capture REST API (`src/server.js`, Prisma
migration in `src/unnamed/part_000`) together with theorems settling the
frozen claims about its specification.

Strings are modelled by Lean `String`; the JavaScript string operations
(`trim`, `toLowerCase`, `replace`, `startsWith`) are embedded as explicit
functions over the underlying character list so that their interaction can
be reasoned about.  JavaScript `\s` also matches some Unicode space
characters; the embedding uses the ASCII whitespace set, which is all the
claims exercise.  `toLowerCase` is embedded with the ASCII mapping for the
same reason.  Timestamps are `Nat` milliseconds.
-/

namespace LeadApi

/-- ASCII members of the JavaScript whitespace class `\s`. -/
def isJsSpace (c : Char) : Bool :=
  c.toNat == 32 || c.toNat == 9 || c.toNat == 10 || c.toNat == 13 ||
  c.toNat == 11 || c.toNat == 12

/-- `String.prototype.trim` on the character list. -/
def jsTrimList (l : List Char) : List Char :=
  ((l.dropWhile isJsSpace).reverse.dropWhile isJsSpace).reverse

/-- `String.prototype.trim`. -/
def jsTrim (s : String) : String := ⟨jsTrimList s.data⟩

/-- ASCII case of `String.prototype.toLowerCase` (uppercase A–Z shifted by 32). -/
def jsLowerChar (c : Char) : Char :=
  if 65 ≤ c.toNat && c.toNat ≤ 90 then Char.ofNat (c.toNat + 32) else c

/-- `String.prototype.toLowerCase`. -/
def jsLower (s : String) : String := ⟨s.data.map jsLowerChar⟩

/-- `sanitizeInput` (server.js:39-42): trim, then delete every `<` and `>`.
Non-string inputs are passed through unchanged by the source; the optional
lift is `sanitizeOpt` below. -/
def sanitize (s : String) : String :=
  ⟨(jsTrimList s.data).filter (fun c => !(c == '<' || c == '>'))⟩

/-- `sanitizeInput` lifted to possibly-absent (`undefined`) fields. -/
def sanitizeOpt (o : Option String) : Option String := o.map sanitize

/-- JavaScript falsiness of a possibly-absent string: `undefined` and `""`. -/
def falsy : Option String → Bool
  | none => true
  | some s => s == ""

/-- `x || null`: an empty or absent string becomes `null`. -/
def orNull (o : Option String) : Option String := if falsy o then none else o

/-- A character admitted by `[^\s@]` in the email regex. -/
def emailOkChar (c : Char) : Bool := !isJsSpace c && c != '@'

/-- The regex `^[^\s@]+@[^\s@]+\.[^\s@]+$` demands `b ++ "." ++ c` with `b`, `c`
nonempty after the `@`; equivalently the domain has a dot that is neither its
first nor its last character. -/
def hasInteriorDot (domain : List Char) : Bool :=
  ((domain.drop 1).dropLast).contains '.'

/-- `isValidEmail` (server.js:18-21): test of `^[^\s@]+@[^\s@]+\.[^\s@]+$`.
The string must split as `local ++ "@" ++ domain` with `local` and `domain`
free of whitespace and `@` (hence exactly one `@`), `local` nonempty, and the
domain containing an interior dot. -/
def isValidEmail (s : String) : Bool :=
  match s.data.dropWhile (fun c => c != '@') with
  | '@' :: domain =>
      !(s.data.takeWhile (fun c => c != '@')).isEmpty &&
      (s.data.takeWhile (fun c => c != '@')).all emailOkChar &&
      domain.all emailOkChar && hasInteriorDot domain
  | _ => false

/-- `isValidPhone` (server.js:23-36): strip non-digits; a cleaned string
starting with the country code `55` must have 10–11 digits after it,
otherwise the whole cleaned string must have 10–11 digits.  An empty string
is falsy and rejected up front. -/
def isValidPhone (s : String) : Bool :=
  if s.data.isEmpty then false
  else
    let d := s.data.filter Char.isDigit
    if ['5', '5'].isPrefixOf d then
      decide (10 ≤ (d.drop 2).length ∧ (d.drop 2).length ≤ 11)
    else
      decide (10 ≤ d.length ∧ d.length ≤ 11)

example : isValidPhone "5511987654321" = true := by decide
example : isValidPhone "11987654321" = true := by decide
example : isValidPhone "123" = false := by decide
example : isValidEmail "jo@x.com" = true := by decide
example : isValidEmail "jo@xcom" = false := by decide
example : isValidEmail "a b@x.com" = false := by decide
example : sanitize "  <b>hi</b> " = "bhi/b" := by decide
example : jsLower "AbC" = "abc" := by decide

/-! ## Data model

Mirrors the Prisma `leads` and `conversoes` tables
(`src/unnamed/part_000`).  The migration declares a unique index
`leads_email_key` on `leads.email` and no foreign-key constraint from
`conversoes.lead_id` to `leads.id`. -/

/-- A row of the `leads` table. -/
structure Lead where
  id : String
  nome : String
  email : String
  telefone : String
  origem : String
  utmSource : Option String
  utmMedium : Option String
  utmCampaign : Option String
  utmContent : Option String
  utmTerm : Option String
  ip : Option String
  userAgent : Option String
  referer : Option String
  status : String
  dataCaptura : Nat
  dataAtualizacao : Nat
deriving Repr, DecidableEq

/-- A row of the `conversoes` table.  The source stores
`valor: valor ? parseFloat(valor) : null`; the IEEE-754 conversion is kept
as the raw optional string here since no claim concerns the numeric value,
only whether and when the row exists. -/
structure Conversao where
  id : String
  leadId : String
  tipo : String
  valor : Option String
  descricao : Option String
  dataConversao : Nat
deriving Repr, DecidableEq

/-- The relational store: the two tables the handlers touch. -/
structure Store where
  leads : List Lead
  conversoes : List Conversao
deriving Repr, DecidableEq

/-- The JSON body of `POST /api/leads` (server.js:74-84); absent fields are
`none`. -/
structure LeadInput where
  nome : Option String
  email : Option String
  telefone : Option String
  origem : Option String
  utm_source : Option String
  utm_medium : Option String
  utm_campaign : Option String
  utm_content : Option String
  utm_term : Option String
deriving Repr, DecidableEq

/-- Request-context data the ingestion handler reads besides the body:
`req.ip`, the `User-Agent` and `Referer` headers, plus the id and
`CURRENT_TIMESTAMP` the store generates for the created row. -/
structure ReqCtx where
  ip : Option String
  userAgent : Option String
  referer : Option String
  freshId : String
  now : Nat
deriving Repr, DecidableEq

/-- Response of the ingestion endpoint, restricted to the observable parts
the claims mention: HTTP status, error `code` (absent on success), and the
`data.dataAnterior` timestamp surfaced by the duplicate pre-check. -/
structure IngestResp where
  status : Nat
  code : Option String
  dataAnterior : Option Nat
deriving Repr, DecidableEq

/-! ## Ingestion (`POST /api/leads`, server.js:72-196)

The handler sanitizes, validates, pre-checks for a duplicate email, then
inserts.  The store's unique index `leads_email_key` is the authoritative
guard: the insert itself fails with Prisma error `P2002` when a row with the
same email exists at insert time.  Concurrency is modelled by the
`interleaved` parameter: rows committed by other requests between this
request's pre-check (which reads `st.leads`) and its insert (which runs
against `st.leads ++ interleaved`).  A sequential run is `interleaved = []`. -/

/-- Sanitized `nome` (server.js:87). -/
def sNome (inp : LeadInput) : Option String := sanitizeOpt inp.nome

/-- Sanitized `email` (server.js:88). -/
def sEmail (inp : LeadInput) : Option String := sanitizeOpt inp.email

/-- Sanitized `telefone` (server.js:89). -/
def sTel (inp : LeadInput) : Option String := sanitizeOpt inp.telefone

/-- Sanitized `origem` (server.js:90). -/
def sOrigem (inp : LeadInput) : Option String := sanitizeOpt inp.origem

/-- `!nome || !email || !telefone` (server.js:93). -/
def missingFields (inp : LeadInput) : Bool :=
  falsy (sNome inp) || falsy (sEmail inp) || falsy (sTel inp)

/-- The sanitized name as a string (the handler only reads it past the
falsiness check, where it is a nonempty string). -/
def nomeVal (inp : LeadInput) : String := (sNome inp).getD ""

/-- The sanitized email as a string. -/
def emailVal (inp : LeadInput) : String := (sEmail inp).getD ""

/-- The sanitized phone as a string. -/
def telVal (inp : LeadInput) : String := (sTel inp).getD ""

/-- The duplicate pre-check (server.js:126-128):
`prisma.lead.findUnique({ where: { email: email.toLowerCase() } })`. -/
def precheckHit (st : Store) (inp : LeadInput) : Option Lead :=
  st.leads.find? (fun l => l.email == jsLower (emailVal inp))

/-- The row `prisma.lead.create` builds (server.js:146-162). -/
def newLeadOf (inp : LeadInput) (ctx : ReqCtx) : Lead :=
  { id := ctx.freshId
    nome := jsTrim (nomeVal inp)
    email := jsTrim (jsLower (emailVal inp))
    telefone := jsTrim (telVal inp)
    origem := if falsy (sOrigem inp) then "website" else (sOrigem inp).getD ""
    utmSource := orNull inp.utm_source
    utmMedium := orNull inp.utm_medium
    utmCampaign := orNull inp.utm_campaign
    utmContent := orNull inp.utm_content
    utmTerm := orNull inp.utm_term
    ip := ctx.ip
    userAgent := orNull ctx.userAgent
    referer := orNull ctx.referer
    status := "novo"
    dataCaptura := ctx.now
    dataAtualizacao := ctx.now }

/-- Whether the insert violates the unique index `leads_email_key` against
the rows present at insert time (Prisma error `P2002`). -/
def uniqueViolation (rows : List Lead) (inp : LeadInput) (ctx : ReqCtx) : Bool :=
  rows.any (fun l => l.email == (newLeadOf inp ctx).email)

/-- `POST /api/leads` (server.js:72-196).  Returns the response together with
the store after the request; on the insert path the store already contains
the `interleaved` rows committed by concurrent requests.  The `catch` block
maps `P2002` to a 409 `EMAIL_EXISTS` response that carries no
`dataAnterior` (server.js:182-188). -/
def submitLead (st : Store) (interleaved : List Lead) (inp : LeadInput)
    (ctx : ReqCtx) : IngestResp × Store :=
  if missingFields inp then
    ({ status := 400, code := some "MISSING_FIELDS", dataAnterior := none }, st)
  else if (nomeVal inp).length < 2 then
    ({ status := 400, code := some "INVALID_NAME", dataAnterior := none }, st)
  else if !isValidEmail (emailVal inp) then
    ({ status := 400, code := some "INVALID_EMAIL", dataAnterior := none }, st)
  else if !isValidPhone (telVal inp) then
    ({ status := 400, code := some "INVALID_PHONE", dataAnterior := none }, st)
  else
    match precheckHit st inp with
    | some existing =>
        ({ status := 409, code := some "EMAIL_EXISTS",
           dataAnterior := some existing.dataCaptura }, st)
    | none =>
        let stIns : Store := { st with leads := st.leads ++ interleaved }
        if uniqueViolation stIns.leads inp ctx then
          ({ status := 409, code := some "EMAIL_EXISTS", dataAnterior := none },
           stIns)
        else
          ({ status := 201, code := none, dataAnterior := none },
           { stIns with leads := stIns.leads ++ [newLeadOf inp ctx] })

/-- Spec-side comparison definition for the ordering claim, following §4.2
of the specification word for word: fail `MissingFields` if name, email, or
phone is empty after sanitization; then `InvalidName` if the trimmed name is
shorter than 2; then `InvalidEmail`; then `InvalidPhone`; then the
duplicate-email lookup by lowercased email.  The first failing check
determines the code. -/
def specFirstError (st : Store) (inp : LeadInput) : Option String :=
  if missingFields inp then some "MISSING_FIELDS"
  else if (nomeVal inp).length < 2 then some "INVALID_NAME"
  else if !isValidEmail (emailVal inp) then some "INVALID_EMAIL"
  else if !isValidPhone (telVal inp) then some "INVALID_PHONE"
  else if (precheckHit st inp).isSome then some "EMAIL_EXISTS"
  else none

/-! ## Access gate

Every administrative handler starts with
`if (key !== process.env.API_KEY && key !== 'mente-milionaria-2024')`
(server.js:204, 287, 333, 384, 500).  `process.env.API_KEY` and `req.query.key`
may both be absent (`undefined`), so both are `Option String`. -/

/-- The shared-secret check: the caller's key equals the configured secret or
the hardcoded fallback. -/
def authorized (apiKey key : Option String) : Bool :=
  key == apiKey || key == some "mente-milionaria-2024"

/-! ## Query Service -/

/-- Query-string filters of `GET /api/leads` (server.js:201); an absent or
empty parameter is falsy and disables its filter (server.js:215-228). -/
structure Filter where
  status : Option String
  origem : Option String
  search : Option String
deriving Repr, DecidableEq

/-- Whether `n` occurs as a contiguous sublist of `h`. -/
def isInfixB (n : List Char) : List Char → Bool
  | [] => n.isEmpty
  | c :: t => n.isPrefixOf (c :: t) || isInfixB n t

/-- Prisma `contains` with `mode: 'insensitive'`: case-insensitive substring. -/
def containsCI (hay needle : String) : Bool :=
  isInfixB (jsLower needle).data (jsLower hay).data

/-- The `where` clause built at server.js:213-228: status equality AND origem
equality AND (name OR email case-insensitive substring). -/
def matchesFilter (f : Filter) (l : Lead) : Bool :=
  (falsy f.status || l.status == f.status.getD "") &&
  (falsy f.origem || l.origem == f.origem.getD "") &&
  (falsy f.search || containsCI l.nome (f.search.getD "") ||
     containsCI l.email (f.search.getD ""))

/-- Insertion into a list kept in descending `dataCaptura` order. -/
def insertDesc (l : Lead) : List Lead → List Lead
  | [] => [l]
  | x :: xs =>
      if l.dataCaptura ≤ x.dataCaptura then x :: insertDesc l xs
      else l :: x :: xs

/-- `orderBy: { dataCaptura: 'desc' }` (server.js:240); the order among equal
timestamps is unspecified by the store and irrelevant to the claims. -/
def sortByCapturaDesc : List Lead → List Lead
  | [] => []
  | x :: xs => insertDesc x (sortByCapturaDesc xs)

/-- Response of `GET /api/leads`, restricted to the observable parts the
claims mention.  A 401 body carries only `success/message/code`; the list
fields are zeroed placeholders in that case. -/
structure ListResp where
  status : Nat
  code : Option String
  items : List Lead
  total : Nat
  page : Nat
  limit : Nat
  totalPages : Nat
deriving Repr, DecidableEq

/-- The post-authentication body of `GET /api/leads` (server.js:212-269).
`page` and `limit` stand for `parseInt(page)` and `parseInt(limit)` of the
query parameters (defaults 1 and 20); the claims only concern positive
values.  `skip = (page-1)*limit`, `take = limit`, and
`totalPages = Math.ceil(total/limit)`, which for `limit > 0` is the natural
ceiling division `(total + limit - 1) / limit`. -/
def listLeadsCore (st : Store) (f : Filter) (page limit : Nat) : ListResp :=
  let matched := st.leads.filter (matchesFilter f)
  let ordered := sortByCapturaDesc matched
  let total := matched.length
  { status := 200, code := none
    items := (ordered.drop ((page - 1) * limit)).take limit
    total := total, page := page, limit := limit
    totalPages := (total + limit - 1) / limit }

/-- `GET /api/leads` (server.js:199-279): gate, then the listing. -/
def listLeadsHandler (apiKey key : Option String) (st : Store) (f : Filter)
    (page limit : Nat) : ListResp :=
  if !authorized apiKey key then
    { status := 401, code := some "UNAUTHORIZED", items := [], total := 0,
      page := page, limit := limit, totalPages := 0 }
  else listLeadsCore st f page limit

/-- Response of `GET /api/leads/:id`. -/
structure GetResp where
  status : Nat
  code : Option String
  lead : Option Lead
deriving Repr, DecidableEq

/-- The post-authentication body of `GET /api/leads/:id`
(server.js:295-314). -/
def getLeadCore (st : Store) (id : String) : GetResp :=
  match st.leads.find? (fun l => l.id == id) with
  | none => { status := 404, code := some "LEAD_NOT_FOUND", lead := none }
  | some l => { status := 200, code := none, lead := some l }

/-- `GET /api/leads/:id` (server.js:282-324). -/
def getLeadHandler (apiKey key : Option String) (st : Store) (id : String) :
    GetResp :=
  if !authorized apiKey key then
    { status := 401, code := some "UNAUTHORIZED", lead := none }
  else getLeadCore st id

/-- The five-value status enum (server.js:341). -/
def validStatuses : List String :=
  ["novo", "contatado", "interessado", "convertido", "descartado"]

/-- Response of `PATCH /api/leads/:id/status` and of the conversion
endpoint: status plus error code. -/
structure UpdateResp where
  status : Nat
  code : Option String
deriving Repr, DecidableEq

/-- The post-authentication body of `PATCH /api/leads/:id/status`
(server.js:341-359 and the `P2025` branch at 362-368).  An absent `status`
field fails `validStatuses.includes` like any other non-member.
`prisma.lead.update` throws `P2025` when no row has the id, translated to a
404; on success the row's status and `@updatedAt` column change. -/
def updateStatusCore (st : Store) (id : String) (newStatus : Option String)
    (now : Nat) : UpdateResp × Store :=
  if !(match newStatus with
       | some s => validStatuses.contains s
       | none => false) then
    ({ status := 400, code := some "INVALID_STATUS" }, st)
  else if st.leads.any (fun l => l.id == id) then
    ({ status := 200, code := none },
     { st with
        leads := st.leads.map (fun l =>
          if l.id == id then
            { l with status := newStatus.getD "", dataAtualizacao := now }
          else l) })
  else
    ({ status := 404, code := some "LEAD_NOT_FOUND" }, st)

/-- `PATCH /api/leads/:id/status` (server.js:327-377). -/
def updateStatusHandler (apiKey key : Option String) (st : Store) (id : String)
    (newStatus : Option String) (now : Nat) : UpdateResp × Store :=
  if !authorized apiKey key then
    ({ status := 401, code := some "UNAUTHORIZED" }, st)
  else updateStatusCore st id newStatus now

/-- Occurrence counts of the keys, as Prisma `groupBy` with `_count`
produces one row per distinct value. -/
def groupCounts (keys : List String) : List (String × Nat) :=
  keys.eraseDups.map (fun k => (k, keys.count k))

/-- Response of `GET /api/stats`. -/
structure StatsResp where
  status : Nat
  code : Option String
  total : Nat
  hoje : Nat
  semana : Nat
  mes : Nat
  porStatus : List (String × Nat)
  porOrigem : List (String × Nat)
  porUtmSource : List (String × Nat)
deriving Repr, DecidableEq

/-- The post-authentication body of `GET /api/stats` (server.js:392-481).
`todayStart` stands for `new Date().setHours(0,0,0,0)` (local midnight,
timezone-dependent, hence a parameter) and `now` for `Date.now()`; the week
and month windows are the literal millisecond arithmetic of
server.js:418 and 427. -/
def statsCore (st : Store) (todayStart now : Nat) : StatsResp :=
  { status := 200, code := none
    total := st.leads.length
    hoje := (st.leads.filter (fun l => todayStart ≤ l.dataCaptura)).length
    semana := (st.leads.filter
      (fun l => now - 7 * 24 * 60 * 60 * 1000 ≤ l.dataCaptura)).length
    mes := (st.leads.filter
      (fun l => now - 30 * 24 * 60 * 60 * 1000 ≤ l.dataCaptura)).length
    porStatus := groupCounts (st.leads.map (fun l => l.status))
    porOrigem := groupCounts (st.leads.map (fun l => l.origem))
    porUtmSource := groupCounts (st.leads.filterMap (fun l => l.utmSource)) }

/-- `GET /api/stats` (server.js:380-491). -/
def statsHandler (apiKey key : Option String) (st : Store)
    (todayStart now : Nat) : StatsResp :=
  if !authorized apiKey key then
    { status := 401, code := some "UNAUTHORIZED", total := 0, hoje := 0,
      semana := 0, mes := 0, porStatus := [], porOrigem := [],
      porUtmSource := [] }
  else statsCore st todayStart now

/-! ## Conversion endpoint (`POST /api/leads/:leadId/conversao`,
server.js:494-537)

Two sequential store writes inside one `try`: `prisma.conversao.create`,
then `prisma.lead.update` — with no surrounding transaction.  The migration
declares no foreign key from `conversoes.lead_id` to `leads`, so the insert
succeeds even for an unknown `leadId`; the `update` then throws `P2025`.
The `catch` block (server.js:529-536) recognizes no Prisma error code and
maps every throw to 500 `INTERNAL_ERROR`, and nothing rolls the insert
back.  `failCreate`/`failUpdate` inject store-level rejection of the
respective write (e.g. a dropped connection), as §5 of the specification
contemplates. -/

/-- The post-authentication body of the conversion endpoint. -/
def recordConversionCore (st : Store) (leadId tipo : String)
    (valor descricao : Option String) (freshId : String) (now : Nat)
    (failCreate failUpdate : Bool) : UpdateResp × Store :=
  if failCreate then
    ({ status := 500, code := some "INTERNAL_ERROR" }, st)
  else
    let conv : Conversao :=
      { id := freshId, leadId := leadId, tipo := tipo, valor := valor,
        descricao := descricao, dataConversao := now }
    let st1 : Store := { st with conversoes := st.conversoes ++ [conv] }
    if failUpdate || !(st1.leads.any (fun l => l.id == leadId)) then
      ({ status := 500, code := some "INTERNAL_ERROR" }, st1)
    else
      ({ status := 201, code := none },
       { st1 with
          leads := st1.leads.map (fun l =>
            if l.id == leadId then
              { l with status := "convertido", dataAtualizacao := now }
            else l) })

/-- `POST /api/leads/:leadId/conversao` (server.js:494-537). -/
def recordConversionHandler (apiKey key : Option String) (st : Store)
    (leadId tipo : String) (valor descricao : Option String)
    (freshId : String) (now : Nat) (failCreate failUpdate : Bool) :
    UpdateResp × Store :=
  if !authorized apiKey key then
    ({ status := 401, code := some "UNAUTHORIZED" }, st)
  else recordConversionCore st leadId tipo valor descricao freshId now
    failCreate failUpdate

/-! ## Concrete fixtures used by witnesses and counterexamples -/

/-- A stored lead as ingestion would create it. -/
def demoLead : Lead :=
  { id := "L1", nome := "Maria", email := "maria@x.com",
    telefone := "11987654321", origem := "website", utmSource := none,
    utmMedium := none, utmCampaign := none, utmContent := none,
    utmTerm := none, ip := none, userAgent := none, referer := none,
    status := "novo", dataCaptura := 5, dataAtualizacao := 5 }

/-- A store holding exactly `demoLead`. -/
def demoStore : Store := { leads := [demoLead], conversoes := [] }

/-- A valid submission body for `maria@x.com` (uppercased local part, to
exercise the lowercasing). -/
def demoInput : LeadInput :=
  { nome := some "Maria", email := some "MARIA@x.com",
    telefone := some "11987654321", origem := none, utm_source := none,
    utm_medium := none, utm_campaign := none, utm_content := none,
    utm_term := none }

/-- A second valid submission body with the same email up to case. -/
def demoInput2 : LeadInput :=
  { nome := some "Other", email := some "Maria@X.COM",
    telefone := some "21987654322", origem := some "landing",
    utm_source := none, utm_medium := none, utm_campaign := none,
    utm_content := none, utm_term := none }

/-- Request context of the first demo submission. -/
def demoCtx : ReqCtx :=
  { ip := some "1.2.3.4", userAgent := none, referer := none,
    freshId := "L9", now := 5 }

/-- Request context of the second demo submission. -/
def demoCtx2 : ReqCtx :=
  { ip := some "5.6.7.8", userAgent := none, referer := none,
    freshId := "L10", now := 9 }

/-- The store before any lead is captured. -/
def emptyStore : Store := { leads := [], conversoes := [] }

/-- A valid submission whose `origem` sanitizes to the empty string
(whitespace and angle brackets only). -/
def demoInputOrigem : LeadInput :=
  { nome := some "Paula", email := some "paula@x.com",
    telefone := some "11987654322", origem := some " <> ",
    utm_source := none, utm_medium := none, utm_campaign := none,
    utm_content := none, utm_term := none }

/-- A stored lead with capture timestamp `i`, for bulk fixtures. -/
def mkLead (i : Nat) : Lead :=
  { id := "B", nome := "Bulk", email := "bulk@x.com",
    telefone := "11987654321", origem := "website", utmSource := none,
    utmMedium := none, utmCampaign := none, utmContent := none,
    utmTerm := none, ip := none, userAgent := none, referer := none,
    status := "novo", dataCaptura := i, dataAtualizacao := i }

/-- A store with 25 leads. -/
def bigStore : Store := { leads := (List.range 25).map mkLead, conversoes := [] }

/-- The empty filter: no status, origem or search restriction. -/
def noFilter : Filter := { status := none, origem := none, search := none }

/-! ## String lemmas -/

/-- Lowercasing never turns a character into whitespace or vice versa. -/
theorem isJsSpace_jsLowerChar (c : Char) :
    isJsSpace (jsLowerChar c) = isJsSpace c := by
  unfold jsLowerChar
  split
  case isTrue h =>
    simp only [Bool.and_eq_true, decide_eq_true_eq] at h
    have hv : (c.toNat + 32).isValidChar := by
      left; omega
    have ht : (Char.ofNat (c.toNat + 32)).toNat = c.toNat + 32 := by
      rw [Char.ofNat, dif_pos hv]; rfl
    unfold isJsSpace
    rw [ht]
    have l : (c.toNat + 32 == 32 || c.toNat + 32 == 9 || c.toNat + 32 == 10 ||
        c.toNat + 32 == 13 || c.toNat + 32 == 11 || c.toNat + 32 == 12) =
        false := by
      simp only [Bool.or_eq_false_iff, beq_eq_false_iff_ne, ne_eq]
      omega
    have r : (c.toNat == 32 || c.toNat == 9 || c.toNat == 10 ||
        c.toNat == 13 || c.toNat == 11 || c.toNat == 12) = false := by
      simp only [Bool.or_eq_false_iff, beq_eq_false_iff_ne, ne_eq]
      omega
    rw [l, r]
  case isFalse h => rfl

/-- A list with no whitespace is unchanged by `jsTrimList`. -/
theorem jsTrimList_eq_self {l : List Char}
    (h : ∀ c ∈ l, isJsSpace c = false) : jsTrimList l = l := by
  unfold jsTrimList
  have d1 : l.dropWhile isJsSpace = l := by
    cases l with
    | nil => rfl
    | cons a t =>
      rw [List.dropWhile_cons, h a (List.mem_cons_self a t)]
      simp
  rw [d1]
  have d2 : l.reverse.dropWhile isJsSpace = l.reverse := by
    cases hr : l.reverse with
    | nil => rfl
    | cons a t =>
      have ha : a ∈ l := by
        rw [← List.mem_reverse, hr]; exact List.mem_cons_self a t
      rw [List.dropWhile_cons, h a ha]
      simp
  rw [d2, List.reverse_reverse]

/-- A string with no whitespace is unchanged by `jsTrim`. -/
theorem jsTrim_eq_self {s : String}
    (h : ∀ c ∈ s.data, isJsSpace c = false) : jsTrim s = s := by
  unfold jsTrim
  rw [jsTrimList_eq_self h]

/-- Every character of a string accepted by the email regex is
non-whitespace. -/
theorem email_chars_noWs {s : String} (h : isValidEmail s = true) :
    ∀ c ∈ s.data, isJsSpace c = false := by
  intro c hc
  unfold isValidEmail at h
  split at h
  case h_1 domain heq =>
    simp only [Bool.and_eq_true] at h
    obtain ⟨⟨⟨hne, hlocl⟩, hdom⟩, hdot⟩ := h
    have hsplit :
        s.data.takeWhile (fun c => c != '@') ++
          s.data.dropWhile (fun c => c != '@') = s.data :=
      List.takeWhile_append_dropWhile _ _
    rw [← hsplit, heq] at hc
    rcases List.mem_append.mp hc with h1 | h2
    · have hok := List.all_eq_true.mp hlocl c h1
      simp only [emailOkChar, Bool.and_eq_true, Bool.not_eq_true'] at hok
      exact hok.1
    · rcases List.mem_cons.mp h2 with rfl | h3
      · decide
      · have hok := List.all_eq_true.mp hdom c h3
        simp only [emailOkChar, Bool.and_eq_true, Bool.not_eq_true'] at hok
        exact hok.1
  case h_2 => exact absurd h (by simp)

/-- Lowercasing preserves whitespace-freeness. -/
theorem jsLower_noWs {s : String} (h : ∀ c ∈ s.data, isJsSpace c = false) :
    ∀ c ∈ (jsLower s).data, isJsSpace c = false := by
  intro c hc
  unfold jsLower at hc
  simp only [List.mem_map] at hc
  obtain ⟨a, ha, rfl⟩ := hc
  rw [isJsSpace_jsLowerChar]
  exact h a ha

/-- On a string accepted by the email regex, the `.trim()` the source applies
after `.toLowerCase()` (server.js:149) is the identity. -/
theorem jsTrim_jsLower_email {s : String} (h : isValidEmail s = true) :
    jsTrim (jsLower s) = jsLower s :=
  jsTrim_eq_self (jsLower_noWs (email_chars_noWs h))

/-- The stored email of a created lead is the lowercased sanitized input
email whenever that email passed validation. -/
theorem newLeadOf_email {inp : LeadInput} (ctx : ReqCtx)
    (h : isValidEmail (emailVal inp) = true) :
    (newLeadOf inp ctx).email = jsLower (emailVal inp) := by
  unfold newLeadOf
  exact jsTrim_jsLower_email h

/-- `insertDesc` adds exactly one element. -/
theorem length_insertDesc (l : Lead) (xs : List Lead) :
    (insertDesc l xs).length = xs.length + 1 := by
  induction xs with
  | nil => rfl
  | cons x t ih =>
    unfold insertDesc
    split
    · simp [ih]
    · simp

/-- Sorting preserves length. -/
theorem length_sortByCapturaDesc (xs : List Lead) :
    (sortByCapturaDesc xs).length = xs.length := by
  induction xs with
  | nil => rfl
  | cons x t ih =>
    unfold sortByCapturaDesc
    rw [length_insertDesc, ih, List.length_cons]

/-! ## Ingestion inversion lemmas -/

/-- Inversion of a successful ingestion: a 201 response implies every check
passed, the insert did not collide, and the new store is the insert-time
store extended with the created row. -/
theorem submit_201_inv {st : Store} {il : List Lead} {inp : LeadInput}
    {ctx : ReqCtx} (h : (submitLead st il inp ctx).1.status = 201) :
    missingFields inp = false ∧ ¬(nomeVal inp).length < 2 ∧
    isValidEmail (emailVal inp) = true ∧ isValidPhone (telVal inp) = true ∧
    precheckHit st inp = none ∧
    uniqueViolation (st.leads ++ il) inp ctx = false ∧
    (submitLead st il inp ctx).2 =
      { leads := (st.leads ++ il) ++ [newLeadOf inp ctx],
        conversoes := st.conversoes } := by
  simp only [submitLead] at h ⊢
  split at h
  case isTrue => simp at h
  case isFalse hmiss =>
    split at h
    case isTrue => simp at h
    case isFalse hname =>
      split at h
      case isTrue => simp at h
      case isFalse hemail =>
        split at h
        case isTrue => simp at h
        case isFalse hphone =>
          split at h
          case h_1 existing heq => simp at h
          case h_2 heq =>
            split at h
            case isTrue => simp at h
            case isFalse huniq =>
              refine ⟨by simpa using hmiss, hname, by simpa using hemail,
                by simpa using hphone, heq, by simpa using huniq, ?_⟩
              rw [if_neg hmiss, if_neg hname, if_neg hemail, if_neg hphone,
                if_neg huniq]

/-! ## Claim C7: characterization of `isValidPhone` -/

/-- Claim C7: for every input string, `isValidPhone` returns true exactly when,
after stripping all non-digit characters, either the cleaned string starts
with `55` and the remaining digits number 10 to 11, or it does not start
with `55` and the full cleaned string has 10 to 11 digits; empty input is
rejected; and in particular `"5511987654321"` is valid. -/
theorem isValidPhone_characterization :
    (∀ s : String,
      isValidPhone s = true ↔
        ((['5', '5'].isPrefixOf (s.data.filter Char.isDigit) = true ∧
            10 ≤ ((s.data.filter Char.isDigit).drop 2).length ∧
            ((s.data.filter Char.isDigit).drop 2).length ≤ 11) ∨
          (['5', '5'].isPrefixOf (s.data.filter Char.isDigit) = false ∧
            10 ≤ (s.data.filter Char.isDigit).length ∧
            (s.data.filter Char.isDigit).length ≤ 11))) ∧
    isValidPhone "" = false ∧ isValidPhone "5511987654321" = true := by
  refine ⟨?_, by decide, by decide⟩
  intro s
  simp only [isValidPhone]
  split_ifs with hemp hp
  · have hnil : s.data = [] := by simpa using hemp
    rw [hnil]
    decide
  · rw [hp]
    simp only [decide_eq_true_eq]
    constructor
    · intro hx
      exact Or.inl ⟨trivial, hx.1, hx.2⟩
    · rintro (⟨_, h1, h2⟩ | ⟨hfalse, _, _⟩)
      · exact ⟨h1, h2⟩
      · exact absurd hfalse (by simp)
  · rw [Bool.not_eq_true] at hp
    rw [hp]
    simp only [decide_eq_true_eq]
    constructor
    · intro hx
      exact Or.inr ⟨trivial, hx.1, hx.2⟩
    · rintro (⟨htrue, _, _⟩ | ⟨_, h1, h2⟩)
      · exact absurd htrue (by simp)
      · exact ⟨h1, h2⟩

/-! ## Claim C4: invalid status values are rejected before any write -/

/-- Claim C4: `update_status` with a value outside the five-element enum
`{novo, contatado, interessado, convertido, descartado}` returns the 400
`INVALID_STATUS` outcome and leaves the store untouched: the rejection
happens before any storage write. -/
theorem updateStatus_invalid_rejected (st : Store) (id : String) (now : Nat)
    (s : String) (h1 : s ≠ "novo") (h2 : s ≠ "contatado")
    (h3 : s ≠ "interessado") (h4 : s ≠ "convertido")
    (h5 : s ≠ "descartado") :
    updateStatusCore st id (some s) now =
      ({ status := 400, code := some "INVALID_STATUS" }, st) := by
  unfold updateStatusCore
  rw [if_pos]
  simp only [validStatuses, Bool.not_eq_true']
  simp [h1, h2, h3, h4, h5]

/-- Witness for C4 at the concrete status value `"banana"`. -/
theorem updateStatus_invalid_rejected_witness :
    ("banana" ≠ "novo" ∧ "banana" ≠ "contatado" ∧ "banana" ≠ "interessado" ∧
      "banana" ≠ "convertido" ∧ "banana" ≠ "descartado") ∧
    updateStatusCore demoStore "L1" (some "banana") 7 =
      ({ status := 400, code := some "INVALID_STATUS" }, demoStore) :=
  ⟨by decide,
   updateStatus_invalid_rejected demoStore "L1" 7 "banana" (by decide)
     (by decide) (by decide) (by decide) (by decide)⟩

/-! ## Claim C6: the ingestion checks run in a fixed order -/

/-- In a sequential run, the insert of a lead whose email passed both
validation and the duplicate pre-check cannot collide with the unique
index. -/
theorem uniqueViolation_false_of_precheck_none {st : Store} {inp : LeadInput}
    (ctx : ReqCtx) (hv : isValidEmail (emailVal inp) = true)
    (hpre : precheckHit st inp = none) :
    uniqueViolation st.leads inp ctx = false := by
  unfold uniqueViolation
  rw [List.any_eq_false]
  intro l hl
  rw [newLeadOf_email ctx hv]
  have := List.find?_eq_none.mp hpre l hl
  simpa using this

/-- Claim C6: ingestion reports its failure conditions in the fixed order
MissingFields, InvalidName, InvalidEmail, InvalidPhone, duplicate email —
for every submission the response's error code is the first failing check of
the spec-side ordered list (`specFirstError`), and `none` when all pass. -/
theorem ingestion_error_order (st : Store) (inp : LeadInput) (ctx : ReqCtx) :
    (submitLead st [] inp ctx).1.code = specFirstError st inp := by
  by_cases h1 : missingFields inp = true
  · simp [submitLead, specFirstError, h1]
  · have h1' : missingFields inp = false := by simpa using h1
    by_cases h2 : (nomeVal inp).length < 2
    · simp [submitLead, specFirstError, h1', h2]
    · by_cases h3 : isValidEmail (emailVal inp) = true
      case neg =>
        have h3' : isValidEmail (emailVal inp) = false := by simpa using h3
        simp [submitLead, specFirstError, h1', h2, h3']
      case pos =>
        by_cases h4 : isValidPhone (telVal inp) = true
        case neg =>
          have h4' : isValidPhone (telVal inp) = false := by simpa using h4
          simp [submitLead, specFirstError, h1', h2, h3, h4']
        case pos =>
          cases hpre : precheckHit st inp with
          | some existing =>
              simp [submitLead, specFirstError, h1', h2, h3, h4, hpre]
          | none =>
              have huniq := uniqueViolation_false_of_precheck_none ctx h3 hpre
              simp [submitLead, specFirstError, h1', h2, h3, h4, hpre, huniq]

/-! ## Claim C10: `origem` defaults to "website" whenever falsy -/

/-- Claim C10: on every successful ingestion the created row's `origem` is
`"website"` whenever the sanitized `origem` is falsy — in particular when
the input becomes empty after trimming and angle-bracket stripping, as
whitespace-only or `"<>"` inputs do — and the stored value is never the
empty string. -/
theorem origem_defaults_website (st : Store) (il : List Lead)
    (inp : LeadInput) (ctx : ReqCtx)
    (h : (submitLead st il inp ctx).1.status = 201) :
    (submitLead st il inp ctx).2.leads =
      (st.leads ++ il) ++ [newLeadOf inp ctx] ∧
    (newLeadOf inp ctx).origem ≠ "" ∧
    (falsy (sOrigem inp) = true → (newLeadOf inp ctx).origem = "website") ∧
    sanitize "   " = "" ∧ sanitize "<>" = "" := by
  obtain ⟨-, -, -, -, -, -, hstore⟩ := submit_201_inv h
  refine ⟨by rw [hstore], ?_, ?_, by decide, by decide⟩
  · unfold newLeadOf
    by_cases hf : falsy (sOrigem inp) = true
    · simp [hf]
    · have hf' : falsy (sOrigem inp) = false := by simpa using hf
      simp only [hf', Bool.false_eq_true, if_false]
      cases ho : sOrigem inp with
      | none => rw [ho] at hf'; simp [falsy] at hf'
      | some s =>
        rw [ho] at hf'
        simp only [falsy] at hf'
        simpa using hf'
  · intro hf
    unfold newLeadOf
    simp [hf]

/-- Witness for C10: a submission whose `origem` input is `" <> "` succeeds
and stores `origem = "website"`. -/
theorem origem_defaults_website_witness :
    (submitLead emptyStore [] demoInputOrigem demoCtx).1.status = 201 ∧
    falsy (sOrigem demoInputOrigem) = true ∧
    (newLeadOf demoInputOrigem demoCtx).origem = "website" :=
  ⟨by decide, by decide,
   (origem_defaults_website emptyStore [] demoInputOrigem demoCtx
     (by decide)).2.2.1 (by decide)⟩

/-! ## Claim C3: case-insensitive email uniqueness is preserved -/

/-- Claim C3: after a successful submission, a second submission whose email
equals the first's after lowercasing — and which passes the field
validations — fails with 409 `EMAIL_EXISTS`, surfaces the first record's
`captured_at` as `dataAnterior`, leaves the store completely unchanged
(never overwrites), and the store holds exactly one lead with that email. -/
theorem email_uniqueness_preserved (st : Store) (inp1 inp2 : LeadInput)
    (c1 c2 : ReqCtx)
    (h1 : (submitLead st [] inp1 c1).1.status = 201)
    (hmail : jsLower (emailVal inp2) = jsLower (emailVal inp1))
    (hm2 : missingFields inp2 = false)
    (hn2 : ¬(nomeVal inp2).length < 2)
    (he2 : isValidEmail (emailVal inp2) = true)
    (hp2 : isValidPhone (telVal inp2) = true) :
    (submitLead (submitLead st [] inp1 c1).2 [] inp2 c2).1.status = 409 ∧
    (submitLead (submitLead st [] inp1 c1).2 [] inp2 c2).1.code =
      some "EMAIL_EXISTS" ∧
    (submitLead (submitLead st [] inp1 c1).2 [] inp2 c2).1.dataAnterior =
      some c1.now ∧
    (submitLead (submitLead st [] inp1 c1).2 [] inp2 c2).2 =
      (submitLead st [] inp1 c1).2 ∧
    ((submitLead st [] inp1 c1).2.leads.filter
      (fun l => l.email == jsLower (emailVal inp1))).length = 1 := by
  obtain ⟨hm1, hn1, he1, hp1, hpre1, huniq1, hstore1⟩ := submit_201_inv h1
  simp only [List.append_nil] at huniq1 hstore1
  set st1 : Store := (submitLead st [] inp1 c1).2 with hst1def
  have hkey1 : (newLeadOf inp1 c1).email = jsLower (emailVal inp1) :=
    newLeadOf_email c1 he1
  have hall : ∀ l ∈ st.leads,
      (l.email == jsLower (emailVal inp1)) = false := by
    intro l hl
    unfold uniqueViolation at huniq1
    rw [List.any_eq_false] at huniq1
    have h := huniq1 l hl
    rw [hkey1] at h
    simpa using h
  have hfind : precheckHit st1 inp2 = some (newLeadOf inp1 c1) := by
    rw [hstore1]
    unfold precheckHit
    rw [hmail]
    rw [List.find?_append]
    have hnone : st.leads.find?
        (fun l => l.email == jsLower (emailVal inp1)) = none := by
      rw [List.find?_eq_none]
      intro x hx
      simp [hall x hx]
    rw [hnone]
    simp [List.find?, hkey1]
  have heval : submitLead st1 [] inp2 c2 =
      ({ status := 409, code := some "EMAIL_EXISTS",
         dataAnterior := some (newLeadOf inp1 c1).dataCaptura },
       st1) := by
    simp only [submitLead]
    rw [if_neg (by simp [hm2]), if_neg hn2, if_neg (by simp [he2]),
      if_neg (by simp [hp2]), hfind]
  refine ⟨by rw [heval], by rw [heval], ?_, by rw [heval], ?_⟩
  · rw [heval]
    simp [newLeadOf]
  rw [hstore1]
  rw [List.filter_append]
  have h0 : st.leads.filter (fun l => l.email == jsLower (emailVal inp1)) =
      [] := by
    rw [List.filter_eq_nil_iff]
    intro x hx
    simp [hall x hx]
  rw [h0]
  simp [hkey1]

/-- Witness for C3: capturing `MARIA@x.com` then `Maria@X.COM` on an empty
store yields a 409 with the first capture's timestamp. -/
theorem email_uniqueness_preserved_witness :
    (submitLead emptyStore [] demoInput demoCtx).1.status = 201 ∧
    jsLower (emailVal demoInput2) = jsLower (emailVal demoInput) ∧
    (submitLead (submitLead emptyStore [] demoInput demoCtx).2 []
      demoInput2 demoCtx2).1.status = 409 ∧
    (submitLead (submitLead emptyStore [] demoInput demoCtx).2 []
      demoInput2 demoCtx2).1.dataAnterior = some 5 :=
  ⟨by decide, by decide,
   (email_uniqueness_preserved emptyStore demoInput demoInput2 demoCtx
     demoCtx2 (by decide) (by decide) (by decide) (by decide) (by decide)
     (by decide)).1,
   (email_uniqueness_preserved emptyStore demoInput demoInput2 demoCtx
     demoCtx2 (by decide) (by decide) (by decide) (by decide) (by decide)
     (by decide)).2.2.1⟩

/-! ## Claim C2: insert-time uniqueness violations -/

/-- Counterexample to C2 as stated: when the unique index rejects the insert
after the pre-check passed (a concurrently committed row with the same
email), the handler answers 409 `EMAIL_EXISTS` but with no `dataAnterior`,
whereas the pre-check path on the very same prior record surfaces
`dataAnterior = 5` — the two outcomes are not the same. -/
theorem race_email_exists_counterexample :
    (submitLead emptyStore [demoLead] demoInput demoCtx).1 =
      { status := 409, code := some "EMAIL_EXISTS", dataAnterior := none } ∧
    (submitLead demoStore [] demoInput demoCtx).1 =
      { status := 409, code := some "EMAIL_EXISTS", dataAnterior := some 5 } ∧
    (submitLead emptyStore [demoLead] demoInput demoCtx).1 ≠
      (submitLead demoStore [] demoInput demoCtx).1 :=
  ⟨by decide, by decide, by decide⟩

/-- Claim C2 amended: a storage-level uniqueness violation raised at insert time,
after the pre-check passed, is translated to the same 409 `EMAIL_EXISTS`
outcome code as the pre-check path — not an internal error — and the request
adds no row; unlike the pre-check path, the response does not surface the
prior record's `captured_at`. -/
theorem race_email_exists_amended (st : Store) (il : List Lead)
    (inp : LeadInput) (ctx : ReqCtx)
    (hm : missingFields inp = false)
    (hn : ¬(nomeVal inp).length < 2)
    (he : isValidEmail (emailVal inp) = true)
    (hp : isValidPhone (telVal inp) = true)
    (hpre : precheckHit st inp = none)
    (hviol : uniqueViolation (st.leads ++ il) inp ctx = true) :
    submitLead st il inp ctx =
      ({ status := 409, code := some "EMAIL_EXISTS", dataAnterior := none },
       { leads := st.leads ++ il, conversoes := st.conversoes }) := by
  simp only [submitLead]
  rw [if_neg (by simp [hm]), if_neg hn, if_neg (by simp [he]),
    if_neg (by simp [hp]), hpre]
  simp [hviol]

/-- Witness for the amended C2 at a concrete interleaving. -/
theorem race_email_exists_amended_witness :
    (missingFields demoInput = false ∧
      precheckHit emptyStore demoInput = none ∧
      uniqueViolation (emptyStore.leads ++ [demoLead]) demoInput demoCtx =
        true) ∧
    submitLead emptyStore [demoLead] demoInput demoCtx =
      ({ status := 409, code := some "EMAIL_EXISTS", dataAnterior := none },
       { leads := emptyStore.leads ++ [demoLead],
         conversoes := emptyStore.conversoes }) :=
  ⟨⟨by decide, by decide, by decide⟩,
   race_email_exists_amended emptyStore [demoLead] demoInput demoCtx
     (by decide) (by decide) (by decide) (by decide) (by decide) (by decide)⟩

/-! ## Claim C1: `record_conversion` is not atomic -/

/-- Claim C1 evaluated at its failing input: the store holds lead `L1` (status
`novo`); the conversion insert succeeds and the store then rejects the
status update.  The handler answers 500, yet the Conversion row is
observable in the resulting store and the lead's status is unchanged —
partial application of the two writes, contradicting the claimed
all-or-nothing behavior. -/
theorem conversao_incomplete_write_observable :
    (recordConversionCore demoStore "L1" "venda" none none "C77" 99
      false true).1 =
      { status := 500, code := some "INTERNAL_ERROR" } ∧
    (recordConversionCore demoStore "L1" "venda" none none "C77" 99
      false true).2.conversoes =
      [{ id := "C77", leadId := "L1", tipo := "venda", valor := none,
         descricao := none, dataConversao := 99 }] ∧
    (recordConversionCore demoStore "L1" "venda" none none "C77" 99
      false true).2.leads = [demoLead] ∧
    demoLead.status = "novo" :=
  ⟨by decide, by decide, by decide, by decide⟩

/-! ## Claim C5: `record_conversion` on a missing lead -/

/-- Claim C5 evaluated at its failing input: no lead has id `ghost`; the
conversion insert succeeds (the migration declares no foreign key), the
status update then raises the missing-row error, and the catch block — which
recognizes no storage error code — answers 500 `INTERNAL_ERROR` instead of
the claimed 404 `LEAD_NOT_FOUND`, leaving an orphan Conversion row. -/
theorem conversao_missing_lead_500 :
    (recordConversionCore demoStore "ghost" "venda" none none "C78" 99
      false false).1 =
      { status := 500, code := some "INTERNAL_ERROR" } ∧
    (recordConversionCore demoStore "ghost" "venda" none none "C78" 99
      false false).1.status ≠ 404 ∧
    (recordConversionCore demoStore "ghost" "venda" none none "C78" 99
      false false).1.code ≠ some "LEAD_NOT_FOUND" ∧
    (recordConversionCore demoStore "ghost" "venda" none none "C78" 99
      false false).2.conversoes =
      [{ id := "C78", leadId := "ghost", tipo := "venda", valor := none,
         descricao := none, dataConversao := 99 }] :=
  ⟨by decide, by decide, by decide, by decide⟩

/-! ## Claim C8: offset pagination and ceiling page count -/

/-- Claim C8: `list_leads` pagination is offset-based with
`offset = (page-1)*limit`, returns the total matching count and
`totalPages = ceil(total/limit)`; in particular, page 2 with limit 10 over
25 matching records (ordered by `captured_at` descending) returns records
11–20 — the ordered list dropped by 10 and truncated to 10, which has
exactly 10 elements — and `totalPages = 3`. -/
theorem pagination_offset_ceil (st : Store) (f : Filter)
    (h : (st.leads.filter (matchesFilter f)).length = 25) :
    (listLeadsCore st f 2 10).total = 25 ∧
    (listLeadsCore st f 2 10).totalPages = 3 ∧
    (listLeadsCore st f 2 10).items =
      ((sortByCapturaDesc (st.leads.filter (matchesFilter f))).drop 10).take
        10 ∧
    (listLeadsCore st f 2 10).items.length = 10 ∧
    (∀ page limit : Nat,
      (listLeadsCore st f page limit).items =
        ((sortByCapturaDesc (st.leads.filter (matchesFilter f))).drop
          ((page - 1) * limit)).take limit ∧
      (listLeadsCore st f page limit).total =
        (st.leads.filter (matchesFilter f)).length ∧
      (listLeadsCore st f page limit).totalPages =
        ((st.leads.filter (matchesFilter f)).length + limit - 1) / limit) := by
  refine ⟨?_, ?_, rfl, ?_, fun page limit => ⟨rfl, rfl, rfl⟩⟩
  · simp only [listLeadsCore]
    rw [h]
  · simp only [listLeadsCore]
    rw [h]
  · simp only [listLeadsCore]
    rw [List.length_take, List.length_drop, length_sortByCapturaDesc, h]
    decide

/-- Witness for C8 on a concrete 25-lead store. -/
theorem pagination_offset_ceil_witness :
    (bigStore.leads.filter (matchesFilter noFilter)).length = 25 ∧
    (listLeadsCore bigStore noFilter 2 10).totalPages = 3 ∧
    (listLeadsCore bigStore noFilter 2 10).items.length = 10 :=
  ⟨by decide, (pagination_offset_ceil bigStore noFilter (by decide)).2.1,
   (pagination_offset_ceil bigStore noFilter (by decide)).2.2.2.1⟩

/-! ## Claim C9: the access gate is uniform over the five admin endpoints -/

/-- Claim C9: the list, get, status-update, stats and conversion handlers answer
401 `UNAUTHORIZED` exactly when the caller's key equals neither the
configured secret nor the hardcoded fallback (`authorized` is false), while
the ingestion handler — which takes no key at all — never answers 401. -/
theorem access_gate_uniform :
    (∀ (apiKey key : Option String) (st : Store) (f : Filter)
        (page limit : Nat),
      ((listLeadsHandler apiKey key st f page limit).status == 401 &&
        (listLeadsHandler apiKey key st f page limit).code ==
          some "UNAUTHORIZED") = !authorized apiKey key) ∧
    (∀ (apiKey key : Option String) (st : Store) (id : String),
      ((getLeadHandler apiKey key st id).status == 401 &&
        (getLeadHandler apiKey key st id).code == some "UNAUTHORIZED") =
        !authorized apiKey key) ∧
    (∀ (apiKey key : Option String) (st : Store) (id : String)
        (ns : Option String) (now : Nat),
      ((updateStatusHandler apiKey key st id ns now).1.status == 401 &&
        (updateStatusHandler apiKey key st id ns now).1.code ==
          some "UNAUTHORIZED") = !authorized apiKey key) ∧
    (∀ (apiKey key : Option String) (st : Store) (todayStart now : Nat),
      ((statsHandler apiKey key st todayStart now).status == 401 &&
        (statsHandler apiKey key st todayStart now).code ==
          some "UNAUTHORIZED") = !authorized apiKey key) ∧
    (∀ (apiKey key : Option String) (st : Store) (leadId tipo : String)
        (valor descricao : Option String) (freshId : String) (now : Nat)
        (fc fu : Bool),
      ((recordConversionHandler apiKey key st leadId tipo valor descricao
          freshId now fc fu).1.status == 401 &&
        (recordConversionHandler apiKey key st leadId tipo valor descricao
          freshId now fc fu).1.code == some "UNAUTHORIZED") =
        !authorized apiKey key) ∧
    (∀ (st : Store) (il : List Lead) (inp : LeadInput) (ctx : ReqCtx),
      ((submitLead st il inp ctx).1.status == 401) = false) := by
  refine ⟨?_, ?_, ?_, ?_, ?_, ?_⟩
  · intro apiKey key st f page limit
    by_cases ha : authorized apiKey key
    · simp [listLeadsHandler, ha, listLeadsCore]
    · have ha' : authorized apiKey key = false := by simpa using ha
      simp [listLeadsHandler, ha']
  · intro apiKey key st id
    by_cases ha : authorized apiKey key
    · cases hfind : st.leads.find? (fun l => l.id == id) with
      | none => simp [getLeadHandler, ha, getLeadCore, hfind]
      | some l => simp [getLeadHandler, ha, getLeadCore, hfind]
    · have ha' : authorized apiKey key = false := by simpa using ha
      simp [getLeadHandler, ha']
  · intro apiKey key st id ns now
    by_cases ha : authorized apiKey key
    · simp only [updateStatusHandler, ha, Bool.not_true, Bool.false_eq_true,
        if_false, updateStatusCore]
      split_ifs <;> simp
    · have ha' : authorized apiKey key = false := by simpa using ha
      simp [updateStatusHandler, ha']
  · intro apiKey key st todayStart now
    by_cases ha : authorized apiKey key
    · simp [statsHandler, ha, statsCore]
    · have ha' : authorized apiKey key = false := by simpa using ha
      simp [statsHandler, ha']
  · intro apiKey key st leadId tipo valor descricao freshId now fc fu
    by_cases ha : authorized apiKey key
    · simp only [recordConversionHandler, ha, Bool.not_true,
        Bool.false_eq_true, if_false, recordConversionCore]
      split_ifs <;> simp
    · have ha' : authorized apiKey key = false := by simpa using ha
      simp [recordConversionHandler, ha']
  · intro st il inp ctx
    simp only [submitLead]
    split_ifs with h1 h2 h3 h4 h5
    any_goals rfl
    all_goals cases hpre : precheckHit st inp <;> simp [hpre]

end LeadApi
